import Mathlib

/-!
Shallow embedding of `node.py` from `tud-cor/d3dshot_screen_grabber`.

The program is a ROS node that captures a screen/window region via d3dshot
and republishes frames on up to two image channels plus a camera_info
channel.  We model the publisher object (`D3DShotPublisher`), its per-cycle
work (`spinOnce`), the publisher loop (`spin`), the context-managed run
(the `with` block in `main`, here `runWith`), and the relevant part of
`main` itself, as functions producing explicit event traces.  External
collaborators (the d3dshot capture thread, ROS subscriber counts, the
wall clock, encode/publish transport faults) are supplied per cycle
through an `Env` record.
-/

namespace D3DShotGrabber

/-- Model of the `sensor_msgs/CameraInfo` message as filled in by
`D3DShotPublisher._create_cam_info_msg`.  Floats are modelled exactly as
rationals; the header stamp is `none` until first set. -/
structure CameraInfoMsg where
  frame_id : String
  width : Nat
  height : Nat
  distortion_model : String
  D : List ℚ
  K : List ℚ
  R : List ℚ
  P : List ℚ
  stamp : Option Nat
  deriving Repr, DecidableEq

/-- Model of the d3dshot instance handle: we only keep the native display
resolution, which the publisher prints but never uses for the descriptor. -/
structure Dshot where
  nativeWidth : Nat
  nativeHeight : Nat
  deriving Repr, DecidableEq

/-- Observable operations performed by the node, recorded as a trace. -/
inductive Event where
  | checkCapturing
  | gateCheckRaw
  | gateCheckCompressed
  | pullFrame
  | colorConvert
  | takeStamp (t : Nat)
  | buildRawMsg
  | buildCompressedMsg
  | publishRaw (stamp : Nat) (fid : String)
  | publishCompressed (stamp : Nat) (fid : String)
  | publishCamInfo (stamp : Nat) (fid : String)
  | registerPublisher (topic : String)
  | initNode
  | startCapture
  | buildDescriptor
  | stopCapture
  deriving Repr, DecidableEq

/-- Events that publish a message on some channel. -/
def Event.isPublish : Event → Bool
  | .publishRaw _ _ => true
  | .publishCompressed _ _ => true
  | .publishCamInfo _ _ => true
  | _ => false

/-- The stamp carried by an event, when it carries one. -/
def Event.stampOf : Event → Option Nat
  | .takeStamp t => some t
  | .publishRaw t _ => some t
  | .publishCompressed t _ => some t
  | .publishCamInfo t _ => some t
  | _ => none

/-- `D3DShotPublisher._create_cam_info_msg(frame_id, width, height)`:
builds the static CameraInfo message from the configured dimensions. -/
def create_cam_info_msg (frame_id : String) (width height : Nat) : CameraInfoMsg :=
  { frame_id := frame_id
    width := width
    height := height
    distortion_model := "plumb_bob"
    D := List.replicate 5 0
    K := [(width : ℚ) / 2, 0, (width : ℚ) / 2,
          0, (height : ℚ) / 2, (height : ℚ) / 2,
          0, 0, 1]
    R := [1, 0, 0,
          0, 1, 0,
          0, 0, 1]
    P := [(width : ℚ) / 2, 0, (width : ℚ) / 2, 0,
          0, (height : ℚ) / 2, (height : ℚ) / 2, 0,
          0, 0, 1, 0]
    stamp := none }

/-- State of a `D3DShotPublisher` object.  The three `pub_*` booleans
record whether the corresponding `rospy.Publisher` was created
(`self._pub_raw`, `self._pub_compressed`, `self._pub_cinfo` being
non-`None`). -/
structure D3DShotPublisher where
  dshot : Dshot
  img_width : Nat
  img_height : Nat
  frame_id : String
  rate : Nat
  pub_raw : Bool
  pub_compressed : Bool
  pub_cinfo : Bool
  cam_info_msg : CameraInfoMsg
  deriving Repr, DecidableEq

/-- `D3DShotPublisher.__init__`: registers the enabled publishers, the
camera_info publisher when at least one image channel is enabled, and
builds the static CameraInfo message once.  Returns the constructed
state together with the trace of construction events. -/
def D3DShotPublisher.init (dshot : Dshot) (img_width img_height : Nat)
    (frame_id ns : String) (pub_raw pub_compressed : Bool) (rate : Nat) :
    D3DShotPublisher × List Event :=
  let base_topic := ns ++ "/image_rect_color"
  let evRaw : List Event :=
    if pub_raw then [Event.registerPublisher base_topic] else []
  let evCompressed : List Event :=
    if pub_compressed then [Event.registerPublisher (base_topic ++ "/compressed")] else []
  let cinfo : Bool := pub_raw || pub_compressed
  let evCinfo : List Event :=
    if cinfo then [Event.registerPublisher (base_topic ++ "/camera_info")] else []
  ({ dshot := dshot
     img_width := img_width
     img_height := img_height
     frame_id := frame_id
     rate := rate
     pub_raw := pub_raw
     pub_compressed := pub_compressed
     pub_cinfo := cinfo
     cam_info_msg := create_cam_info_msg frame_id img_width img_height },
   evRaw ++ evCompressed ++ evCinfo ++ [Event.buildDescriptor])

/-- `D3DShotPublisher._have_raw_subs`: false when the raw publisher was
never created, otherwise whether `get_num_connections() > 0`. -/
def D3DShotPublisher.have_raw_subs (s : D3DShotPublisher) (numConnections : Nat) : Bool :=
  if s.pub_raw then decide (0 < numConnections) else false

/-- `D3DShotPublisher._have_compressed_subs`: false when the compressed
publisher was never created, otherwise whether `get_num_connections() > 0`. -/
def D3DShotPublisher.have_compressed_subs (s : D3DShotPublisher) (numConnections : Nat) : Bool :=
  if s.pub_compressed then decide (0 < numConnections) else false

/-- Per-cycle external environment: the d3dshot liveness flag, the two
subscriber counts, the wall clock, fault flags for the two per-channel
encode+publish steps, and external cancellation hitting this cycle. -/
structure Env where
  isCapturing : Bool
  rawConns : Nat
  compressedConns : Nat
  now : Nat
  rawStepOk : Bool
  compressedStepOk : Bool
  cancelled : Bool
  deriving Repr, DecidableEq

/-- Errors that can escape a cycle or the loop. -/
inductive CycleError where
  | notCapturing
  | encodePublish
  | cancelled
  deriving Repr, DecidableEq

/-- Result of one cycle or of a whole run: the error that escaped (if
any), the publisher state afterwards, and the event trace. -/
structure CycleResult where
  err : Option CycleError
  state : D3DShotPublisher
  events : List Event
  deriving Repr, DecidableEq

/-- `D3DShotPublisher.spinOnce`: one cycle.  Raises `notCapturing` when
d3dshot is no longer active; returns early when no gate is true; else
pulls one frame, converts color once, takes one stamp, then runs the raw
branch, the compressed branch and the camera_info branch in order.  A
fault in a branch's encode/publish step escapes immediately (the source
has no try/except here). -/
def D3DShotPublisher.spinOnce (s : D3DShotPublisher) (env : Env) : CycleResult :=
  if !env.isCapturing then
    { err := some CycleError.notCapturing, state := s, events := [Event.checkCapturing] }
  else
    let have_raw := s.have_raw_subs env.rawConns
    let have_compressed := s.have_compressed_subs env.compressedConns
    let evGate : List Event :=
      [Event.checkCapturing, Event.gateCheckRaw, Event.gateCheckCompressed]
    if !(have_raw || have_compressed) then
      { err := none, state := s, events := evGate }
    else
      let evPull : List Event :=
        evGate ++ [Event.pullFrame, Event.colorConvert, Event.takeStamp env.now]
      if have_raw && !env.rawStepOk then
        { err := some CycleError.encodePublish, state := s, events := evPull }
      else
        let evRaw : List Event :=
          evPull ++ (if have_raw then
            [Event.buildRawMsg, Event.publishRaw env.now s.frame_id] else [])
        if have_compressed && !env.compressedStepOk then
          { err := some CycleError.encodePublish, state := s, events := evRaw }
        else
          let evCompressed : List Event :=
            evRaw ++ (if have_compressed then
              [Event.buildCompressedMsg, Event.publishCompressed env.now s.frame_id] else [])
          if s.pub_cinfo && (have_raw || have_compressed) then
            let msg := { s.cam_info_msg with stamp := some env.now }
            { err := none
              state := { s with cam_info_msg := msg }
              events := evCompressed ++ [Event.publishCamInfo env.now msg.frame_id] }
          else
            { err := none, state := s, events := evCompressed }

/-- `D3DShotPublisher.spin`: the publisher loop.  The list holds the
environments of successive cycles until `rospy.is_shutdown()` turns true
(list exhausted = clean shutdown).  A cycle hit by external cancellation
aborts the loop with `cancelled`; an error escaping `spinOnce` aborts the
loop with that error.  There is no per-cycle exception handling. -/
def D3DShotPublisher.spin (s : D3DShotPublisher) : List Env → CycleResult
  | [] => { err := none, state := s, events := [] }
  | env :: rest =>
    if env.cancelled then
      { err := some CycleError.cancelled, state := s, events := [] }
    else
      let c := s.spinOnce env
      match c.err with
      | some e => { err := some e, state := c.state, events := c.events }
      | none =>
        let r := c.state.spin rest
        { err := r.err, state := r.state, events := c.events ++ r.events }

/-- The `with setup_d3dshot_pub(...) as shot_pub: shot_pub.spin()` block
of `main`: whatever way `spin` exits (clean shutdown, escaping error, or
cancellation), `__exit__` runs and calls `self._dshot.stop()` before
control returns. -/
def runWith (s : D3DShotPublisher) (envs : List Env) : CycleResult :=
  let r := s.spin envs
  { r with events := r.events ++ [Event.stopCapture] }

/-- `setup_d3dshot(display_id, fps, region)`: creates the d3dshot
instance and starts high-speed capture; `dshot.capture(..)` returning
false makes it raise `ValueError`.  The boolean input models that
external outcome. -/
def setup_d3dshot (fps : Nat) (capture_ok : Bool) (d : Dshot) : Except String Dshot :=
  if capture_ok then Except.ok d
  else Except.error "Failed to start d3dshot capture (unknown reason)"

/-- Parsed command-line arguments relevant to the publisher. -/
structure Args where
  rate : Nat
  ns : String
  no_raw : Bool
  no_compressed : Bool
  deriving Repr, DecidableEq

/-- `setup_d3dshot_pub(dshot, args, img_width, img_height)`. -/
def setup_d3dshot_pub (dshot : Dshot) (args : Args) (img_width img_height : Nat) :
    D3DShotPublisher × List Event :=
  D3DShotPublisher.init dshot img_width img_height "camera_rgb_optical_frame" args.ns
    (!args.no_raw) (!args.no_compressed) args.rate

/-- External outcomes consumed by `main`: whether the window lookup
succeeds, whether starting d3dshot capture succeeds, the d3dshot handle,
the region dimensions, the parsed arguments and the cycle environments. -/
structure MainEnv where
  window_found : Bool
  capture_start_ok : Bool
  dshot : Dshot
  img_width : Nat
  img_height : Nat
  args : Args
  cycles : List Env
  deriving Repr, DecidableEq

/-- `main()` from the window lookup onwards: window lookup failure exits
with status 1; a `setup_d3dshot` failure propagates before
`rospy.init_node` and before any publisher is created; otherwise the node
is initialised, the publisher constructed, and the loop run inside the
`with` block.  Returns (clean-exit?, full event trace). -/
def main (m : MainEnv) : Bool × List Event :=
  if !m.window_found then (false, [])
  else
    match setup_d3dshot m.args.rate m.capture_start_ok m.dshot with
    | Except.error _ => (false, [])
    | Except.ok dshot =>
      let p := setup_d3dshot_pub dshot m.args m.img_width m.img_height
      let r := runWith p.1 m.cycles
      (r.err = none, [Event.startCapture, Event.initNode] ++ p.2 ++ r.events)

/-! ## Sample concrete instances used by witnesses -/

/-- A d3dshot handle whose native resolution differs from the region. -/
def sampleDshot : Dshot := { nativeWidth := 1920, nativeHeight := 1080 }

/-- A publisher constructed with both channels enabled over a 640x480 region. -/
def samplePub : D3DShotPublisher :=
  (D3DShotPublisher.init sampleDshot 640 480 "camera_rgb_optical_frame" "capture"
    true true 30).1

/-- A cycle environment with capture live and no subscribers. -/
def idleEnv : Env :=
  { isCapturing := true, rawConns := 0, compressedConns := 0, now := 5,
    rawStepOk := true, compressedStepOk := true, cancelled := false }

/-- A cycle environment with capture live and one raw subscriber. -/
def busyEnv : Env :=
  { isCapturing := true, rawConns := 1, compressedConns := 2, now := 42,
    rawStepOk := true, compressedStepOk := true, cancelled := false }

/-! ## Helper lemmas -/

/-- One cycle never stops the capture source. -/
theorem spinOnce_stop_not_mem (s : D3DShotPublisher) (env : Env) :
    Event.stopCapture ∉ (s.spinOnce env).events := by
  cases hc : env.isCapturing <;>
    cases hr : s.have_raw_subs env.rawConns <;>
      cases hcp : s.have_compressed_subs env.compressedConns <;>
        cases hro : env.rawStepOk <;>
          cases hco : env.compressedStepOk <;>
            cases hci : s.pub_cinfo <;>
              simp [D3DShotPublisher.spinOnce, hc, hr, hcp, hro, hco, hci]

/-- The loop body never stops the capture source. -/
theorem spin_stop_not_mem (s : D3DShotPublisher) (envs : List Env) :
    Event.stopCapture ∉ (s.spin envs).events := by
  induction envs generalizing s with
  | nil => simp [D3DShotPublisher.spin]
  | cons env rest ih =>
    simp only [D3DShotPublisher.spin]
    by_cases hcan : env.cancelled
    · simp [hcan]
    · simp only [hcan, if_neg, Bool.false_eq_true, not_false_eq_true, if_false]
      cases herr : (s.spinOnce env).err with
      | some e => simpa using spinOnce_stop_not_mem s env
      | none =>
        simp only [List.mem_append, not_or]
        exact ⟨spinOnce_stop_not_mem s env, ih _⟩

/-! ## Claims -/

/-- C1: zero-cost idle — in a cycle where capture is live and both
subscriber gates are false, `spinOnce` pulls no frame, converts nothing,
builds no message and publishes nothing; the resulting trace is exactly
the liveness check and the two gate checks, and the state is unchanged. -/
theorem c1_zero_cost_idle (s : D3DShotPublisher) (env : Env)
    (hc : env.isCapturing = true)
    (hr : s.have_raw_subs env.rawConns = false)
    (hcp : s.have_compressed_subs env.compressedConns = false) :
    s.spinOnce env =
      { err := none, state := s,
        events := [Event.checkCapturing, Event.gateCheckRaw, Event.gateCheckCompressed] } := by
  simp [D3DShotPublisher.spinOnce, hc, hr, hcp]

/-- Witness for C1 at a concrete publisher and environment. -/
theorem c1_zero_cost_idle_witness :
    idleEnv.isCapturing = true ∧
    samplePub.have_raw_subs idleEnv.rawConns = false ∧
    samplePub.have_compressed_subs idleEnv.compressedConns = false ∧
    samplePub.spinOnce idleEnv =
      { err := none, state := samplePub,
        events := [Event.checkCapturing, Event.gateCheckRaw, Event.gateCheckCompressed] } :=
  ⟨rfl, rfl, rfl, c1_zero_cost_idle samplePub idleEnv rfl rfl rfl⟩

/-- The events a cycle produces after taking the shared stamp, when
capture is live and at least one gate is true (mirrors the branch
structure of `spinOnce` after the `takeStamp` point). -/
def cycleTail (s : D3DShotPublisher) (env : Env) : List Event :=
  let have_raw := s.have_raw_subs env.rawConns
  let have_compressed := s.have_compressed_subs env.compressedConns
  if have_raw && !env.rawStepOk then []
  else
    let rawPart : List Event :=
      if have_raw then [Event.buildRawMsg, Event.publishRaw env.now s.frame_id] else []
    if have_compressed && !env.compressedStepOk then rawPart
    else
      let compPart : List Event :=
        if have_compressed then
          [Event.buildCompressedMsg, Event.publishCompressed env.now s.frame_id] else []
      if s.pub_cinfo && (have_raw || have_compressed) then
        rawPart ++ compPart ++ [Event.publishCamInfo env.now s.cam_info_msg.frame_id]
      else rawPart ++ compPart

/-- In a live cycle with at least one gate true, the trace is the checks,
the pull, the single conversion, the stamp, then `cycleTail`. -/
theorem spinOnce_events_shape (s : D3DShotPublisher) (env : Env)
    (hc : env.isCapturing = true)
    (hg : (s.have_raw_subs env.rawConns || s.have_compressed_subs env.compressedConns) = true) :
    (s.spinOnce env).events =
      [Event.checkCapturing, Event.gateCheckRaw, Event.gateCheckCompressed,
       Event.pullFrame, Event.colorConvert, Event.takeStamp env.now] ++ cycleTail s env := by
  cases hr : s.have_raw_subs env.rawConns <;>
    cases hcp : s.have_compressed_subs env.compressedConns <;>
      cases hro : env.rawStepOk <;>
        cases hco : env.compressedStepOk <;>
          cases hci : s.pub_cinfo <;>
            simp_all [D3DShotPublisher.spinOnce, cycleTail]

/-- Every stamped event in the tail of a cycle carries the cycle's clock
value. -/
theorem cycleTail_stamps (s : D3DShotPublisher) (env : Env) :
    ∀ e ∈ cycleTail s env, ∀ t, e.stampOf = some t → t = env.now := by
  cases hr : s.have_raw_subs env.rawConns <;>
    cases hcp : s.have_compressed_subs env.compressedConns <;>
      cases hro : env.rawStepOk <;>
        cases hco : env.compressedStepOk <;>
          cases hci : s.pub_cinfo <;>
            simp_all [cycleTail, List.forall_mem_cons, Event.stampOf]

/-- The tail of a cycle never takes another stamp. -/
theorem cycleTail_no_takeStamp (s : D3DShotPublisher) (env : Env) (t : Nat) :
    Event.takeStamp t ∉ cycleTail s env := by
  cases hr : s.have_raw_subs env.rawConns <;>
    cases hcp : s.have_compressed_subs env.compressedConns <;>
      cases hro : env.rawStepOk <;>
        cases hco : env.compressedStepOk <;>
          cases hci : s.pub_cinfo <;>
            simp_all [cycleTail]

/-- C3: single shared timestamp — in a live cycle with at least one gate
true, exactly one stamp is taken, it is taken after the frame pull and
before any publish, and every stamped output of the cycle (raw image,
compressed image, camera_info) carries exactly that value. -/
theorem c3_shared_timestamp (s : D3DShotPublisher) (env : Env)
    (hc : env.isCapturing = true)
    (hg : (s.have_raw_subs env.rawConns || s.have_compressed_subs env.compressedConns) = true) :
    (s.spinOnce env).events.count (Event.takeStamp env.now) = 1 ∧
    (∃ l1 l2, (s.spinOnce env).events = l1 ++ Event.takeStamp env.now :: l2 ∧
      Event.pullFrame ∈ l1 ∧ (∀ e ∈ l1, e.isPublish = false)) ∧
    (∀ e ∈ (s.spinOnce env).events, ∀ t, e.stampOf = some t → t = env.now) := by
  have hshape := spinOnce_events_shape s env hc hg
  refine ⟨?_, ?_, ?_⟩
  · rw [hshape]
    have h0 : (cycleTail s env).count (Event.takeStamp env.now) = 0 :=
      List.count_eq_zero.mpr (cycleTail_no_takeStamp s env env.now)
    simp [List.count_append, h0]
  · refine ⟨[Event.checkCapturing, Event.gateCheckRaw, Event.gateCheckCompressed,
      Event.pullFrame, Event.colorConvert], cycleTail s env, ?_, ?_, ?_⟩
    · simpa using hshape
    · simp
    · simp [List.forall_mem_cons, Event.isPublish]
  · rw [hshape]
    intro e he t hst
    rcases List.mem_append.mp he with h6 | htail
    · simp only [List.mem_cons, List.not_mem_nil, or_false] at h6
      rcases h6 with rfl | rfl | rfl | rfl | rfl | rfl <;> simp_all [Event.stampOf]
    · exact cycleTail_stamps s env e htail t hst

/-- Witness for C3 at a concrete publisher and environment. -/
theorem c3_shared_timestamp_witness :
    busyEnv.isCapturing = true ∧
    (samplePub.have_raw_subs busyEnv.rawConns ||
      samplePub.have_compressed_subs busyEnv.compressedConns) = true ∧
    ((samplePub.spinOnce busyEnv).events.count (Event.takeStamp busyEnv.now) = 1 ∧
     (∃ l1 l2, (samplePub.spinOnce busyEnv).events = l1 ++ Event.takeStamp busyEnv.now :: l2 ∧
       Event.pullFrame ∈ l1 ∧ (∀ e ∈ l1, e.isPublish = false)) ∧
     (∀ e ∈ (samplePub.spinOnce busyEnv).events, ∀ t, e.stampOf = some t → t = busyEnv.now)) :=
  ⟨rfl, rfl, c3_shared_timestamp samplePub busyEnv rfl rfl⟩

/-- C4: metadata gating — in any cycle that completes without raising,
the camera_info message is published exactly when at least one of the raw
or compressed image messages is published in that same cycle (for any
publisher whose camera_info channel was created iff an image channel was
enabled, as `__init__` guarantees). -/
theorem c4_metadata_gating (s : D3DShotPublisher) (env : Env)
    (hinv : s.pub_cinfo = (s.pub_raw || s.pub_compressed))
    (hok : (s.spinOnce env).err = none) :
    ((∃ t f, Event.publishCamInfo t f ∈ (s.spinOnce env).events) ↔
      ((∃ t f, Event.publishRaw t f ∈ (s.spinOnce env).events) ∨
       (∃ t f, Event.publishCompressed t f ∈ (s.spinOnce env).events))) := by
  cases hc : env.isCapturing <;>
    cases hpr : s.pub_raw <;>
      cases hpc : s.pub_compressed <;>
        cases hro : env.rawStepOk <;>
          cases hco : env.compressedStepOk <;>
            cases hrc : decide (0 < env.rawConns) <;>
              cases hcc : decide (0 < env.compressedConns) <;>
                simp_all [D3DShotPublisher.spinOnce, D3DShotPublisher.have_raw_subs,
                  D3DShotPublisher.have_compressed_subs]

/-- Witness for C4 at a concrete publisher and environment. -/
theorem c4_metadata_gating_witness :
    samplePub.pub_cinfo = (samplePub.pub_raw || samplePub.pub_compressed) ∧
    (samplePub.spinOnce busyEnv).err = none ∧
    ((∃ t f, Event.publishCamInfo t f ∈ (samplePub.spinOnce busyEnv).events) ↔
      ((∃ t f, Event.publishRaw t f ∈ (samplePub.spinOnce busyEnv).events) ∨
       (∃ t f, Event.publishCompressed t f ∈ (samplePub.spinOnce busyEnv).events))) :=
  ⟨rfl, rfl, c4_metadata_gating samplePub busyEnv rfl rfl⟩

/-- C2: the capture source is stopped exactly once per run, on every
exit path of the context-managed publisher loop (clean shutdown, error
escaping a cycle, or external cancellation), and the stop is the last
event before control returns. -/
theorem c2_stop_exactly_once (s : D3DShotPublisher) (envs : List Env) :
    (runWith s envs).events.count Event.stopCapture = 1 ∧
    (runWith s envs).events.getLast? = some Event.stopCapture := by
  constructor
  · have h0 : (s.spin envs).events.count Event.stopCapture = 0 :=
      List.count_eq_zero.mpr (spin_stop_not_mem s envs)
    simp [runWith, List.count_append, h0]
  · simp [runWith]

/-- A cycle environment in which the raw encode/publish step faults. -/
def faultEnv : Env :=
  { isCapturing := true, rawConns := 1, compressedConns := 0, now := 9,
    rawStepOk := false, compressedStepOk := true, cancelled := false }

/-- A `main` environment whose d3dshot capture start fails. -/
def failMain : MainEnv :=
  { window_found := true, capture_start_ok := false, dshot := sampleDshot,
    img_width := 640, img_height := 480,
    args := { rate := 30, ns := "capture", no_raw := false, no_compressed := false },
    cycles := [] }

/-- A string strictly grows when a nonempty string is appended. -/
theorem append_ne_left (s t : String) (h : t.length ≠ 0) : s ≠ s ++ t := by
  intro he
  have hl := congrArg String.length he
  rw [String.length_append] at hl
  omega

/-- Appending suffixes of different lengths yields different strings. -/
theorem append_ne_append_of_length (s t u : String) (h : t.length ≠ u.length) :
    s ++ t ≠ s ++ u := by
  intro he
  have hl := congrArg String.length he
  rw [String.length_append, String.length_append] at hl
  omega

/-- C5 counterexample: the claim that an encode/publish failure is
contained within its cycle is false on the code — with a raw-step fault
in the first of two cycles, the loop terminates with the error and the
second cycle never runs (its liveness check never happens). -/
theorem c5_containment_counterexample :
    (samplePub.spin [faultEnv, busyEnv]).err = some CycleError.encodePublish ∧
    (samplePub.spin [faultEnv, busyEnv]).events.count Event.checkCapturing = 1 :=
  ⟨rfl, rfl⟩

/-- A cycle environment in which the compressed encode/publish step
faults while the raw step succeeds. -/
def compressedFaultEnv : Env :=
  { isCapturing := true, rawConns := 1, compressedConns := 2, now := 11,
    rawStepOk := true, compressedStepOk := false, cancelled := false }

/-- C5 amended: a failure of a cycle's encode/publish step — on either
the raw or the compressed channel — is NOT contained: it propagates out
of `spinOnce` and terminates the publisher loop; the scoped exit still
stops the capture source exactly once. -/
theorem c5_amended_error_terminates_loop (s : D3DShotPublisher) (env : Env)
    (rest : List Env)
    (hcap : env.isCapturing = true) (hcanc : env.cancelled = false)
    (hfault :
      (s.have_raw_subs env.rawConns = true ∧ env.rawStepOk = false) ∨
      (s.have_compressed_subs env.compressedConns = true ∧
        env.compressedStepOk = false)) :
    (runWith s (env :: rest)).err = some CycleError.encodePublish ∧
    (runWith s (env :: rest)).events.count Event.stopCapture = 1 := by
  have herr : (s.spinOnce env).err = some CycleError.encodePublish := by
    rcases hfault with ⟨h1, h2⟩ | ⟨h1, h2⟩ <;>
      cases hr : s.have_raw_subs env.rawConns <;>
        cases hcp : s.have_compressed_subs env.compressedConns <;>
          cases hro : env.rawStepOk <;>
            cases hco : env.compressedStepOk <;>
              simp_all [D3DShotPublisher.spinOnce]
  have hstop : (s.spinOnce env).events.count Event.stopCapture = 0 :=
    List.count_eq_zero.mpr (spinOnce_stop_not_mem s env)
  constructor <;>
    simp [runWith, D3DShotPublisher.spin, hcanc, herr, List.count_append, hstop]

/-- Witness for the amended C5: a compressed-step fault at a concrete
publisher and environments (the counterexample already exercises a
raw-step fault). -/
theorem c5_amended_witness :
    compressedFaultEnv.isCapturing = true ∧ compressedFaultEnv.cancelled = false ∧
    samplePub.have_compressed_subs compressedFaultEnv.compressedConns = true ∧
    compressedFaultEnv.compressedStepOk = false ∧
    ((runWith samplePub (compressedFaultEnv :: [busyEnv])).err =
      some CycleError.encodePublish ∧
     (runWith samplePub (compressedFaultEnv :: [busyEnv])).events.count
      Event.stopCapture = 1) :=
  ⟨rfl, rfl, rfl, rfl,
   c5_amended_error_terminates_loop samplePub compressedFaultEnv [busyEnv] rfl rfl
     (Or.inr ⟨rfl, rfl⟩)⟩

/-- C6: startup failure atomicity — if starting the d3dshot capture
fails, `main` fails before `rospy.init_node` and before any publisher is
created: no channel of any kind is registered, no node is registered, and
the exit is a failure. -/
theorem c6_startup_atomicity (m : MainEnv) (h : m.capture_start_ok = false) :
    (main m).1 = false ∧
    (∀ t, Event.registerPublisher t ∉ (main m).2) ∧
    Event.initNode ∉ (main m).2 := by
  cases hw : m.window_found <;> simp [main, setup_d3dshot, h, hw]

/-- Witness for C6 at a concrete failing startup. -/
theorem c6_startup_atomicity_witness :
    failMain.capture_start_ok = false ∧
    ((main failMain).1 = false ∧
     (∀ t, Event.registerPublisher t ∉ (main failMain).2) ∧
     Event.initNode ∉ (main failMain).2) :=
  ⟨rfl, c6_startup_atomicity failMain rfl⟩

/-- C7: disabled-channel gate — a channel disabled at construction never
has its publisher registered, and its subscriber gate is false in every
cycle regardless of the external consumer count. -/
theorem c7_disabled_channel_gate (dshot : Dshot) (w h rate : Nat) (fid ns : String)
    (pub_raw pub_compressed : Bool) :
    (pub_raw = false →
      Event.registerPublisher (ns ++ "/image_rect_color") ∉
        (D3DShotPublisher.init dshot w h fid ns pub_raw pub_compressed rate).2 ∧
      ∀ conns,
        (D3DShotPublisher.init dshot w h fid ns pub_raw pub_compressed
          rate).1.have_raw_subs conns = false) ∧
    (pub_compressed = false →
      Event.registerPublisher (ns ++ "/image_rect_color" ++ "/compressed") ∉
        (D3DShotPublisher.init dshot w h fid ns pub_raw pub_compressed rate).2 ∧
      ∀ conns,
        (D3DShotPublisher.init dshot w h fid ns pub_raw pub_compressed
          rate).1.have_compressed_subs conns = false) := by
  have h1 : ns ++ "/image_rect_color" ≠ ns ++ "/image_rect_color" ++ "/compressed" :=
    append_ne_left _ _ (by decide)
  have h2 : ns ++ "/image_rect_color" ≠ ns ++ "/image_rect_color" ++ "/camera_info" :=
    append_ne_left _ _ (by decide)
  have h3 : ns ++ "/image_rect_color" ++ "/compressed" ≠
      ns ++ "/image_rect_color" ++ "/camera_info" :=
    append_ne_append_of_length _ _ _ (by decide)
  have h4 : ns ++ "/image_rect_color" ++ "/compressed" ≠ ns ++ "/image_rect_color" :=
    fun he => h1 he.symm
  constructor
  · intro h
    cases hpc : pub_compressed <;>
      simp_all [D3DShotPublisher.init, D3DShotPublisher.have_raw_subs]
  · intro h
    cases hpr : pub_raw <;>
      simp_all [D3DShotPublisher.init, D3DShotPublisher.have_compressed_subs]

/-- Witness for C7 with both channels disabled and a positive consumer
count offered to each gate. -/
theorem c7_disabled_channel_gate_witness :
    Event.registerPublisher ("capture" ++ "/image_rect_color") ∉
      (D3DShotPublisher.init sampleDshot 100 100 "camera_rgb_optical_frame" "capture"
        false false 30).2 ∧
    (D3DShotPublisher.init sampleDshot 100 100 "camera_rgb_optical_frame" "capture"
      false false 30).1.have_raw_subs 3 = false ∧
    Event.registerPublisher ("capture" ++ "/image_rect_color" ++ "/compressed") ∉
      (D3DShotPublisher.init sampleDshot 100 100 "camera_rgb_optical_frame" "capture"
        false false 30).2 ∧
    (D3DShotPublisher.init sampleDshot 100 100 "camera_rgb_optical_frame" "capture"
      false false 30).1.have_compressed_subs 3 = false :=
  ⟨((c7_disabled_channel_gate sampleDshot 100 100 30 "camera_rgb_optical_frame" "capture"
      false false).1 rfl).1,
   ((c7_disabled_channel_gate sampleDshot 100 100 30 "camera_rgb_optical_frame" "capture"
      false false).1 rfl).2 3,
   ((c7_disabled_channel_gate sampleDshot 100 100 30 "camera_rgb_optical_frame" "capture"
      false false).2 rfl).1,
   ((c7_disabled_channel_gate sampleDshot 100 100 30 "camera_rgb_optical_frame" "capture"
      false false).2 rfl).2 3⟩

/-- One cycle never builds a descriptor. -/
theorem spinOnce_buildDescriptor_not_mem (s : D3DShotPublisher) (env : Env) :
    Event.buildDescriptor ∉ (s.spinOnce env).events := by
  cases hc : env.isCapturing <;>
    cases hr : s.have_raw_subs env.rawConns <;>
      cases hcp : s.have_compressed_subs env.compressedConns <;>
        cases hro : env.rawStepOk <;>
          cases hco : env.compressedStepOk <;>
            cases hci : s.pub_cinfo <;>
              simp [D3DShotPublisher.spinOnce, hc, hr, hcp, hro, hco, hci]

/-- The loop body never builds a descriptor. -/
theorem spin_buildDescriptor_not_mem (s : D3DShotPublisher) (envs : List Env) :
    Event.buildDescriptor ∉ (s.spin envs).events := by
  induction envs generalizing s with
  | nil => simp [D3DShotPublisher.spin]
  | cons env rest ih =>
    simp only [D3DShotPublisher.spin]
    by_cases hcan : env.cancelled
    · simp [hcan]
    · simp only [hcan, Bool.false_eq_true, not_false_eq_true, if_false]
      cases herr : (s.spinOnce env).err with
      | some e => simpa using spinOnce_buildDescriptor_not_mem s env
      | none =>
        simp only [List.mem_append, not_or]
        exact ⟨spinOnce_buildDescriptor_not_mem s env, ih _⟩

/-- C8: the CameraDescriptor is built as a pure function of
`(frame_id, width, height)` with the plumb_bob/no-distortion default
model, five zero distortion coefficients, intrinsic and projection focal
terms and center both `(width/2, height/2)`, identity rectification, and
it is built exactly once per run (once during construction, never again
during the loop or at teardown). -/
theorem c8_camera_descriptor (fid ns : String) (w h : Nat) (dshot : Dshot)
    (pub_raw pub_compressed : Bool) (rate : Nat) (envs : List Env) :
    (create_cam_info_msg fid w h).frame_id = fid ∧
    (create_cam_info_msg fid w h).width = w ∧
    (create_cam_info_msg fid w h).height = h ∧
    (create_cam_info_msg fid w h).distortion_model = "plumb_bob" ∧
    (create_cam_info_msg fid w h).D = [0, 0, 0, 0, 0] ∧
    (create_cam_info_msg fid w h).K =
      [(w : ℚ) / 2, 0, (w : ℚ) / 2, 0, (h : ℚ) / 2, (h : ℚ) / 2, 0, 0, 1] ∧
    (create_cam_info_msg fid w h).R = [1, 0, 0, 0, 1, 0, 0, 0, 1] ∧
    (create_cam_info_msg fid w h).P =
      [(w : ℚ) / 2, 0, (w : ℚ) / 2, 0, 0, (h : ℚ) / 2, (h : ℚ) / 2, 0, 0, 0, 1, 0] ∧
    (create_cam_info_msg fid w h).stamp = none ∧
    (D3DShotPublisher.init dshot w h fid ns pub_raw pub_compressed rate).1.cam_info_msg =
      create_cam_info_msg fid w h ∧
    ((D3DShotPublisher.init dshot w h fid ns pub_raw pub_compressed rate).2 ++
      (runWith (D3DShotPublisher.init dshot w h fid ns pub_raw pub_compressed rate).1
        envs).events).count Event.buildDescriptor = 1 := by
  refine ⟨rfl, rfl, rfl, rfl, by simp [create_cam_info_msg, List.replicate], rfl, rfl, rfl,
    rfl, rfl, ?_⟩
  have hspin : ((D3DShotPublisher.init dshot w h fid ns pub_raw pub_compressed
      rate).1.spin envs).events.count Event.buildDescriptor = 0 :=
    List.count_eq_zero.mpr (spin_buildDescriptor_not_mem _ envs)
  have hinit : (D3DShotPublisher.init dshot w h fid ns pub_raw pub_compressed
      rate).2.count Event.buildDescriptor = 1 := by
    cases pub_raw <;> cases pub_compressed <;>
      simp [D3DShotPublisher.init, List.count_append]
  simp [runWith, List.count_append, hinit, hspin]

/-- Everything in the publisher state except the descriptor's attached
stamp: all scalar fields and every non-stamp field of the CameraInfo
message. -/
def nonStampView (s : D3DShotPublisher) :
    Dshot × Nat × Nat × String × Nat × Bool × Bool × Bool ×
      (String × Nat × Nat × String × List ℚ × List ℚ × List ℚ × List ℚ) :=
  (s.dshot, s.img_width, s.img_height, s.frame_id, s.rate, s.pub_raw, s.pub_compressed,
   s.pub_cinfo,
   (s.cam_info_msg.frame_id, s.cam_info_msg.width, s.cam_info_msg.height,
    s.cam_info_msg.distortion_model, s.cam_info_msg.D, s.cam_info_msg.K,
    s.cam_info_msg.R, s.cam_info_msg.P))

/-- One cycle changes nothing in the state but (at most) the attached
stamp. -/
theorem spinOnce_nonStampView (s : D3DShotPublisher) (env : Env) :
    nonStampView (s.spinOnce env).state = nonStampView s := by
  cases hc : env.isCapturing <;>
    cases hr : s.have_raw_subs env.rawConns <;>
      cases hcp : s.have_compressed_subs env.compressedConns <;>
        cases hro : env.rawStepOk <;>
          cases hco : env.compressedStepOk <;>
            cases hci : s.pub_cinfo <;>
              simp [D3DShotPublisher.spinOnce, nonStampView, hc, hr, hcp, hro, hco, hci]

/-- The whole loop changes nothing in the state but (at most) the
attached stamp. -/
theorem spin_nonStampView (s : D3DShotPublisher) (envs : List Env) :
    nonStampView (s.spin envs).state = nonStampView s := by
  induction envs generalizing s with
  | nil => simp [D3DShotPublisher.spin]
  | cons env rest ih =>
    simp only [D3DShotPublisher.spin]
    by_cases hcan : env.cancelled
    · simp [hcan]
    · simp only [hcan, Bool.false_eq_true, not_false_eq_true, if_false]
      cases herr : (s.spinOnce env).err with
      | some e => simpa using spinOnce_nonStampView s env
      | none => simpa using (ih (s.spinOnce env).state).trans (spinOnce_nonStampView s env)

/-- C9: descriptor frame condition — across every cycle of a run the only
field of the publisher state (in particular of the CameraDescriptor) that
is ever modified is the attached capture timestamp, and the descriptor's
width/height come from the configured region dimensions regardless of the
capture source's native resolution. -/
theorem c9_descriptor_only_stamp (s : D3DShotPublisher) (envs : List Env)
    (dshot : Dshot) (w h rate : Nat) (fid ns : String) (pub_raw pub_compressed : Bool) :
    nonStampView (s.spin envs).state = nonStampView s ∧
    (D3DShotPublisher.init dshot w h fid ns pub_raw pub_compressed
      rate).1.cam_info_msg.width = w ∧
    (D3DShotPublisher.init dshot w h fid ns pub_raw pub_compressed
      rate).1.cam_info_msg.height = h :=
  ⟨spin_nonStampView s envs, rfl, rfl⟩

/-- With both channels disabled the loop never publishes anything, in
any cycle of any run. -/
theorem spin_no_publish_of_disabled (s : D3DShotPublisher) (envs : List Env)
    (hr : s.pub_raw = false) (hc : s.pub_compressed = false) :
    ∀ e ∈ (s.spin envs).events, e.isPublish = false := by
  induction envs generalizing s with
  | nil => simp [D3DShotPublisher.spin]
  | cons env rest ih =>
    simp only [D3DShotPublisher.spin]
    by_cases hcan : env.cancelled
    · simp [hcan]
    · simp only [hcan, Bool.false_eq_true, not_false_eq_true, if_false]
      cases hcap : env.isCapturing
      · simp [D3DShotPublisher.spinOnce, hcap, Event.isPublish, List.forall_mem_cons]
      · have hcyc : s.spinOnce env =
            { err := none, state := s,
              events := [Event.checkCapturing, Event.gateCheckRaw,
                Event.gateCheckCompressed] } := by
          simp [D3DShotPublisher.spinOnce, D3DShotPublisher.have_raw_subs,
            D3DShotPublisher.have_compressed_subs, hcap, hr, hc]
        rw [hcyc]
        intro e he
        rcases List.mem_append.mp he with h3 | hrest
        · simp only [List.mem_cons, List.not_mem_nil, or_false] at h3
          rcases h3 with rfl | rfl | rfl <;> rfl
        · exact ih s hr hc e hrest

/-- C10: with both channels disabled at construction no publisher of any
kind is registered (camera_info included), and every live cycle reduces
to the liveness check plus the two gate checks with nothing published and
the state unchanged; no cycle of any run publishes anything. -/
theorem c10_both_disabled (dshot : Dshot) (w h rate : Nat) (fid ns : String)
    (env : Env) (envs : List Env) (hcap : env.isCapturing = true) :
    (∀ t, Event.registerPublisher t ∉
      (D3DShotPublisher.init dshot w h fid ns false false rate).2) ∧
    (D3DShotPublisher.init dshot w h fid ns false false rate).1.pub_cinfo = false ∧
    (D3DShotPublisher.init dshot w h fid ns false false rate).1.spinOnce env =
      { err := none,
        state := (D3DShotPublisher.init dshot w h fid ns false false rate).1,
        events := [Event.checkCapturing, Event.gateCheckRaw,
          Event.gateCheckCompressed] } ∧
    (∀ e ∈ ((D3DShotPublisher.init dshot w h fid ns false false rate).1.spin
      envs).events, e.isPublish = false) := by
  refine ⟨?_, rfl, ?_, spin_no_publish_of_disabled _ envs rfl rfl⟩
  · intro t
    simp [D3DShotPublisher.init]
  · simp [D3DShotPublisher.spinOnce, D3DShotPublisher.have_raw_subs,
      D3DShotPublisher.have_compressed_subs, D3DShotPublisher.init, hcap]

/-- Witness for C10 at a concrete construction, cycle and run. -/
theorem c10_both_disabled_witness :
    idleEnv.isCapturing = true ∧
    ((∀ t, Event.registerPublisher t ∉
      (D3DShotPublisher.init sampleDshot 100 100 "camera_rgb_optical_frame" "capture"
        false false 30).2) ∧
    (D3DShotPublisher.init sampleDshot 100 100 "camera_rgb_optical_frame" "capture"
      false false 30).1.pub_cinfo = false ∧
    (D3DShotPublisher.init sampleDshot 100 100 "camera_rgb_optical_frame" "capture"
      false false 30).1.spinOnce idleEnv =
      { err := none,
        state := (D3DShotPublisher.init sampleDshot 100 100 "camera_rgb_optical_frame"
          "capture" false false 30).1,
        events := [Event.checkCapturing, Event.gateCheckRaw,
          Event.gateCheckCompressed] } ∧
    (∀ e ∈ ((D3DShotPublisher.init sampleDshot 100 100 "camera_rgb_optical_frame"
      "capture" false false 30).1.spin [idleEnv, busyEnv]).events,
      e.isPublish = false)) :=
  ⟨rfl, c10_both_disabled sampleDshot 100 100 30 "camera_rgb_optical_frame" "capture"
    idleEnv [idleEnv, busyEnv] rfl⟩

end D3DShotGrabber
